import Mathlib

/-!
Verification development for the atlas-fluvial repository.

Part A models the Ambient Artifact Generation Pipeline (the PDF generator
agent described in `PDF_GENERATOR_README.md`): run state machine, single
flight coordinator, map renderer, document composer, publisher, retry
wrapper, and scheduler loop reaction.  The Python implementation files
(`pdf_creator.py`, `map_generator.py`, `netlify_uploader.py`,
`langgraph_agent.py`, `run_ambient_agent.py`) are not part of the source
tree here, so these definitions are modelled from the specification and
the README.

Part B embeds the two React handlers that are present in the source tree:
`WaterwaysAssistant.handleSubmit` and `ElevationWidget.handleLocationQuery`,
as pure state-transition functions together with the list of network
requests the handler issues.
-/

namespace AtlasFluvial

/-- Modelled from the spec: the error taxonomy of §7 (the Python pipeline
sources are missing from the tree). -/
inductive PipeError
  | RenderUnavailable
  | RenderTimeout
  | ComposeError
  | PublishUnauthorized
  | PublishTransient
  | RunInProgress
  | Cancelled
deriving DecidableEq, Repr

/-- Modelled from the spec: the three pipeline stages a run moves through. -/
inductive Stage
  | Rendering
  | Composing
  | Publishing
deriving DecidableEq, Repr

/-- Modelled from the spec: per-run status, §3 `RunState.status`. -/
inductive RunStatus
  | Pending
  | Rendering
  | Composing
  | Publishing
  | Succeeded
  | Failed
deriving DecidableEq, Repr

/-- A status is terminal exactly when the run is over (§3). -/
def RunStatus.isTerminal : RunStatus → Bool
  | .Succeeded => true
  | .Failed => true
  | _ => false

/-- Geographic anchor: latitude/longitude in decimal degrees (§3). -/
structure Anchor where
  latitude : ℚ
  longitude : ℚ
deriving DecidableEq, Repr

/-- Modelled from the spec: the logical trigger timestamp of a run
(`GenerationRequest.generatedAt`), as a calendar date-time. -/
structure Timestamp where
  year : ℕ
  month : ℕ
  day : ℕ
  hour : ℕ
  minute : ℕ
  second : ℕ
deriving DecidableEq, Repr

/-- A calendar-plausible timestamp; in particular every field fits the
fixed width it is printed at. -/
def Timestamp.valid (t : Timestamp) : Prop :=
  t.year < 10000 ∧ 1 ≤ t.month ∧ t.month ≤ 12 ∧ 1 ≤ t.day ∧ t.day ≤ 31 ∧
    t.hour < 24 ∧ t.minute < 60 ∧ t.second < 60

instance (t : Timestamp) : Decidable t.valid := by
  unfold Timestamp.valid; infer_instance

/-- Modelled from the spec: immutable per-run input, §3 `GenerationRequest`. -/
structure GenerationRequest where
  anchor : Anchor
  scale : ℚ
  pageSize : String
  generatedAt : Timestamp
deriving DecidableEq, Repr

/-- The rendered bounding region: the anchor is the northwest corner and the
region extends south and east (§3, glossary). -/
structure BoundingBox where
  north : ℚ
  south : ℚ
  west : ℚ
  east : ℚ
deriving DecidableEq, Repr

/-- Modelled from the spec: §3 `RenderedMap`. -/
structure RenderedMap where
  imageData : List ℕ
  bbox : BoundingBox
  capturedAt : Timestamp
deriving DecidableEq, Repr

/-- A page of the composed document: the map page with its overlay label, or
the culture page with its section grid and "last updated" stamp (§4.2). -/
inductive Page
  | mapPage (image : List ℕ) (label : String)
  | culturePage (rows cols : ℕ) (sections : List String) (stamp : String)
deriving DecidableEq, Repr

/-- Modelled from the spec: §3 `ComposedArtifact`. -/
structure ComposedArtifact where
  pages : List Page
  pageSize : String
deriving DecidableEq, Repr

/-- Modelled from the spec: §3 `PublishedArtifact`; the composed document the
URL resolves to is carried along so that properties of "the referenced
document" can be stated. -/
structure PublishedArtifact where
  url : String
  filename : String
  sizeBytes : ℕ
  doc : ComposedArtifact
deriving DecidableEq, Repr

/-- Modelled from the spec: §3 `RunState` (status, attempt count per stage,
last error, and the artifact on success). -/
structure RunState where
  req : GenerationRequest
  status : RunStatus
  renderAttempts : ℕ
  composeAttempts : ℕ
  publishAttempts : ℕ
  lastError : Option (Stage × PipeError)
  artifact : Option PublishedArtifact
deriving DecidableEq, Repr

/-- A freshly accepted trigger: a `Pending` run with no attempts yet. -/
def newRun (req : GenerationRequest) : RunState :=
  { req := req, status := .Pending, renderAttempts := 0, composeAttempts := 0,
    publishAttempts := 0, lastError := none, artifact := none }

/-! ### Generation Coordinator: single-flight trigger admission (§4.4) -/

/-- The coordinator's record of runs, most recent first.  The head is the
only run that can still be non-terminal. -/
abbrev CoordState := List RunState

/-- Whether some recorded run is still in flight. -/
def hasNonTerminal (s : CoordState) : Bool :=
  s.any (fun r => ¬ r.status.isTerminal)

/-- Number of non-terminal runs, the quantity the single-flight invariant
bounds by one. -/
def countNonTerminal (s : CoordState) : ℕ :=
  (s.filter (fun r => ¬ r.status.isTerminal)).length

/-- Modelled from the spec: trigger admission (§4.4).  A trigger arriving
while a run is non-terminal is rejected with `RunInProgress` and changes
nothing; otherwise a fresh `Pending` run is recorded. -/
def triggerRun (s : CoordState) (req : GenerationRequest) :
    CoordState × Except PipeError Unit :=
  if hasNonTerminal s then (s, .error .RunInProgress)
  else (newRun req :: s, .ok ())

/-- The two kinds of coordinator transitions: accepting a trigger, and the
coordinator advancing the active run's status. -/
inductive CoordEvent
  | trigger (req : GenerationRequest)
  | advance (st : RunStatus)
deriving Repr

/-- Modelled from the spec: one coordinator transition.  `advance` moves the
active (head, non-terminal) run to a new status; it is a no-op when no run
is in flight. -/
def coordStep (s : CoordState) : CoordEvent → CoordState
  | .trigger req => (triggerRun s req).1
  | .advance st =>
    match s with
    | [] => []
    | r :: rest =>
      if r.status.isTerminal then r :: rest
      else { r with status := st } :: rest

/-! ### Map Renderer (§4.1) -/

/-- Modelled from the spec: the fixed angular span (decimal degrees) the
rendered region covers at a given scale — a fixed physical span, so it is
proportional to the scale ratio and independent of the anchor. -/
def spanDegrees (scale : ℚ) : ℚ := scale / 750000

/-- Modelled from the spec: the bounding box actually rendered — the anchor
is the northwest corner and the region extends south and east (README: "The
map extends South and East from the NW corner"). -/
def mapBBox (a : Anchor) (scale : ℚ) : BoundingBox :=
  { north := a.latitude, south := a.latitude - spanDegrees scale,
    west := a.longitude, east := a.longitude + spanDegrees scale }

/-- Modelled from the spec: one render attempt (§4.1), over the external
capability `fetchMapImage` (indexed by attempt number).  An unreachable
provider or an empty payload is `RenderUnavailable`; a complete image yields
a `RenderedMap` over `mapBBox`. -/
def renderOp (fetchMapImage : ℕ → Anchor → ℚ → Except PipeError (List ℕ))
    (req : GenerationRequest) (i : ℕ) : Except PipeError RenderedMap :=
  match fetchMapImage i req.anchor req.scale with
  | .error e => .error e
  | .ok bytes =>
    if bytes.isEmpty then .error .RenderUnavailable
    else .ok { imageData := bytes, bbox := mapBBox req.anchor req.scale,
               capturedAt := req.generatedAt }

/-! ### Retry wrapper (§4.1, §4.3, §7) -/

/-- The transient, retried error classes of §7. -/
def isTransient : PipeError → Bool
  | .RenderTimeout => true
  | .PublishTransient => true
  | _ => false

/-- Modelled from the spec: the configured attempt ceiling N. -/
def retryCeiling : ℕ := 3

/-- Base backoff delay in milliseconds. -/
def backoffBaseMs : ℕ := 1000

/-- Exponential backoff: the sleep before retry number `i + 1`. -/
def backoffDelayMs (i : ℕ) : ℕ := backoffBaseMs * 2 ^ i

/-- Outcome of running a stage under the retry wrapper: how many attempts
were made, which backoff sleeps were performed, and the final result. -/
structure RetryResult (α : Type) where
  attempts : ℕ
  delays : List ℕ
  result : Except PipeError α
deriving Repr

/-- Modelled from the spec: bounded local retry (§7).  `i` is the index of
the next attempt, the second argument the attempts remaining.  Only
transient errors are retried, with exponential backoff; any other error and
any success stop immediately. -/
def runRetry (op : ℕ → Except PipeError α) : ℕ → ℕ → RetryResult α
  | _, 0 => { attempts := 0, delays := [], result := .error .Cancelled }
  | i, rem + 1 =>
    match op i with
    | .ok a => { attempts := 1, delays := [], result := .ok a }
    | .error e =>
      if isTransient e && rem != 0 then
        let r := runRetry op (i + 1) rem
        { attempts := r.attempts + 1, delays := backoffDelayMs i :: r.delays,
          result := r.result }
      else { attempts := 1, delays := [], result := .error e }

/-- Run a stage operation under the retry policy with the configured
ceiling. -/
def retryStage (op : ℕ → Except PipeError α) : RetryResult α :=
  runRetry op 0 retryCeiling

/-! ### Document Composer (§4.2) -/

/-- The fixed overlay label of page 1 — a configuration constant (README:
page 1 is labeled "Map 1"). -/
def mapLabelText : String := "Map 1"

/-- Culture-page grid shape: 2 rows. -/
def cultureGridRows : ℕ := 2

/-- Culture-page grid shape: 3 columns. -/
def cultureGridCols : ℕ := 3

/-- The six static narrative sections of page 2 (static/templated content,
not derived from the map). -/
def narrativeSections : List String :=
  ["History", "Geography", "Cuisine", "Festivals", "Architecture", "Local Customs"]

/-- English month names for the human-readable date stamp. -/
def monthName (m : ℕ) : String :=
  ["January", "February", "March", "April", "May", "June", "July",
   "August", "September", "October", "November", "December"].getD (m - 1) "Unknown"

/-- `generatedAt` rendered in a human-readable date format for the page-2
"last updated" stamp. -/
def humanDate (t : Timestamp) : String :=
  "Last updated: " ++ monthName t.month ++ " " ++ toString t.day ++ ", " ++
    toString t.year

/-- The two-page document built from a map image and the trigger timestamp:
page 1 the labelled map, page 2 the 2×3 culture grid with the stamp. -/
def mkArtifact (img : List ℕ) (generatedAt : Timestamp) (pageSize : String) :
    ComposedArtifact :=
  { pages := [.mapPage img mapLabelText,
              .culturePage cultureGridRows cultureGridCols narrativeSections
                (humanDate generatedAt)],
    pageSize := pageSize }

/-- Modelled from the spec: the Document Composer (§4.2).  `libClock` stands
for the embedding library's ambient clock; the composer suppresses it (fixed
document metadata), so the output never depends on it.  An undecodable
(empty) image is `ComposeError`; otherwise the artifact has exactly the map
page and the culture page. -/
def composeDoc (libClock : ℕ) (m : RenderedMap) (generatedAt : Timestamp)
    (pageSize : String) : Except PipeError ComposedArtifact :=
  if m.imageData.isEmpty then .error .ComposeError
  else .ok (mkArtifact m.imageData generatedAt pageSize)

/-! ### Filenames (§3, §4.3) -/

/-- `n` printed in decimal, zero-padded on the left to width `w`
(most-significant digit first). -/
def padNum (w n : ℕ) : List Char :=
  List.replicate (w - (Nat.digits 10 n).length) '0' ++
    ((Nat.digits 10 n).reverse.map Nat.digitChar)

/-- Numeric value of a decimal digit character (left inverse of
`Nat.digitChar` on digits). -/
def undigit (c : Char) : ℕ := c.toNat - 48

/-- The fixed-width `YYYYMMDD_HHMMSS` timestamp embedded in filenames
(README: "PDF filenames include timestamps to prevent overwrites"). -/
def stampChars (t : Timestamp) : List Char :=
  padNum 4 t.year ++ padNum 2 t.month ++ padNum 2 t.day ++ ['_'] ++
    padNum 2 t.hour ++ padNum 2 t.minute ++ padNum 2 t.second

/-- The anchor part of the filename. -/
def anchorTag (a : Anchor) : String :=
  toString a.latitude ++ "_" ++ toString a.longitude

/-- Modelled from the spec: `PublishedArtifact.filename` as a pure function
of the anchor and `generatedAt`, with the timestamp as a fixed-width
suffix. -/
def pdfFilename (a : Anchor) (t : Timestamp) : String :=
  "map_" ++ anchorTag a ++ "_" ++ String.mk (stampChars t) ++ ".pdf"

/-! ### Artifact Publisher (§4.3) -/

/-- The store's public base URL (README: uploads go to the Netlify CDN). -/
def storeBaseUrl : String := "https://atlas-fluvial.netlify.app"

/-- Modelled from the spec: one publish attempt (§4.3) over the external
store capability `upload` (indexed by attempt number; byte serialization of
the artifact is abstracted).  On success the public URL is the store base
plus the filename. -/
def publishOp (upload : ℕ → String → ComposedArtifact → Except PipeError Unit)
    (fname : String) (art : ComposedArtifact) (i : ℕ) :
    Except PipeError PublishedArtifact :=
  match upload i fname art with
  | .error e => .error e
  | .ok _ =>
    .ok { url := storeBaseUrl ++ "/" ++ fname, filename := fname,
          sizeBytes := (art.pages.map fun p => match p with
            | .mapPage img label => img.length + label.length
            | .culturePage _ _ sections stamp =>
                (sections.map String.length).sum + stamp.length).sum,
          doc := art }

/-! ### Run execution (§4.4) -/

/-- The external collaborators a run needs, behind their capability
interfaces (§6), indexed by attempt number. -/
structure Collaborators where
  fetchMapImage : ℕ → Anchor → ℚ → Except PipeError (List ℕ)
  upload : ℕ → String → ComposedArtifact → Except PipeError Unit

/-- What one run produced: the final `RunState`, the sequence of statuses
entered in order, and how many times the Composer and the Publisher were
invoked. -/
structure RunOutcome where
  state : RunState
  trace : List RunStatus
  composeCalls : ℕ
  publishCalls : ℕ
deriving Repr

/-- Modelled from the spec: the Coordinator executing one accepted run
(§4.4) — Renderer, Composer, Publisher in strict sequence, failing fast to
`Failed` with the originating stage and error. -/
def runOnce (C : Collaborators) (req : GenerationRequest) : RunOutcome :=
  let r := retryStage (renderOp C.fetchMapImage req)
  match r.result with
  | .error e =>
    { state := { req := req, status := .Failed, renderAttempts := r.attempts,
                 composeAttempts := 0, publishAttempts := 0,
                 lastError := some (.Rendering, e), artifact := none },
      trace := [.Pending, .Rendering, .Failed],
      composeCalls := 0, publishCalls := 0 }
  | .ok m =>
    match composeDoc 0 m req.generatedAt req.pageSize with
    | .error e =>
      { state := { req := req, status := .Failed, renderAttempts := r.attempts,
                   composeAttempts := 1, publishAttempts := 0,
                   lastError := some (.Composing, e), artifact := none },
        trace := [.Pending, .Rendering, .Composing, .Failed],
        composeCalls := 1, publishCalls := 0 }
    | .ok art =>
      let fname := pdfFilename req.anchor req.generatedAt
      let p := retryStage (publishOp C.upload fname art)
      match p.result with
      | .error e =>
        { state := { req := req, status := .Failed, renderAttempts := r.attempts,
                     composeAttempts := 1, publishAttempts := p.attempts,
                     lastError := some (.Publishing, e), artifact := none },
          trace := [.Pending, .Rendering, .Composing, .Publishing, .Failed],
          composeCalls := 1, publishCalls := p.attempts }
      | .ok pub =>
        { state := { req := req, status := .Succeeded, renderAttempts := r.attempts,
                     composeAttempts := 1, publishAttempts := p.attempts,
                     lastError := none, artifact := some pub },
          trace := [.Pending, .Rendering, .Composing, .Publishing, .Succeeded],
          composeCalls := 1, publishCalls := p.attempts }

/-! ### Scheduler Loop reaction (§4.5, §6, §7) -/

/-- Operating mode selected at startup. -/
inductive RunMode
  | once
  | ambient
deriving DecidableEq, Repr

/-- What the process does after a run reports its terminal state. -/
inductive LoopDecision
  | exitWith (code : ℕ) (message : String)
  | continueLoop
deriving DecidableEq, Repr

/-- Display name of a stage, for error messages. -/
def Stage.name : Stage → String
  | .Rendering => "Rendering"
  | .Composing => "Composing"
  | .Publishing => "Publishing"

/-- The human-readable report for a terminal run state; for a failed run it
identifies the failing stage. -/
def exitMessage (rs : RunState) : String :=
  match rs.status, rs.lastError with
  | .Succeeded, _ => "success"
  | _, some (st, _) => "run failed at stage " ++ st.name
  | _, none => "run did not succeed"

/-- One-shot exit code: 0 exactly on success. -/
def oneShotExitCode (rs : RunState) : ℕ :=
  if rs.status = .Succeeded then 0 else 1

/-- Modelled from the spec: the Scheduler Loop's reaction to a terminal run
state (§4.5, §6): one-shot mode exits with the run's exit code and message;
ambient mode never exits on a run's outcome — it continues to the next
interval. -/
def schedulerReact : RunMode → RunState → LoopDecision
  | .once, rs => .exitWith (oneShotExitCode rs) (exitMessage rs)
  | .ambient, _ => .continueLoop

/-! ## Part B: website components present in the source tree -/

namespace Site

/-! ### WaterwaysAssistant (src/unnamed/part_003) -/

/-- The JavaScript whitespace characters: skipped by `parseFloat` at the
start of its input and removed by `trim`. -/
def jsWhitespace (c : Char) : Bool :=
  c = ' ' || c = '\t' || c = '\n' || c = '\r' || c = '\x0b' || c = '\x0c'

/-- Who a chat message is from (`Message.type` in the component). -/
inductive Sender
  | user
  | assistant
deriving DecidableEq, Repr

/-- A chat message as kept in the component's `messages` state (metadata
fields other than sender and content are not relevant here). -/
structure ChatMessage where
  sender : Sender
  content : String
deriving DecidableEq, Repr

/-- The POST body `handleSubmit` sends to the RAG API. -/
structure QueryRequest where
  query : String
  useCompression : Bool
  includeSources : Bool
deriving DecidableEq, Repr

/-- The request body built in `handleSubmit`:
`{ query: input, use_compression: true, include_sources: true }`. -/
def mkQueryRequest (q : String) : QueryRequest :=
  { query := q, useCompression := true, includeSources := true }

/-- The component state `handleSubmit` reads and writes. -/
structure AssistantState where
  messages : List ChatMessage
  input : String
  loading : Bool
  showExamples : Bool
deriving DecidableEq, Repr

/-- Whether a string is empty or whitespace-only — exactly when JavaScript's
`input.trim()` is the empty string, i.e. when `!input.trim()` is truthy. -/
def isBlank (s : String) : Bool := s.data.all jsWhitespace

/-- The assistant's greeting message shown before any query. -/
def greetingText : String :=
  "Hello! I'm your French Waterways Assistant. I can help you with information about rivers, canals, navigation, locks, and more. What would you like to know?"

/-- The component's initial state: one assistant greeting, empty input, not
loading, examples shown. -/
def initAssistantState : AssistantState :=
  { messages := [{ sender := .assistant, content := greetingText }],
    input := "", loading := false, showExamples := true }

/-- Embeds `WaterwaysAssistant.handleSubmit` (src/unnamed/part_003): the
synchronous part of the handler, up to and including issuing the network
request.  Guard: `if (!input.trim() || loading) return;` — an empty or
whitespace-only input, or a query already in flight, returns with no state
change and no request.  Otherwise the user message is appended, the input
cleared, `loading` set, examples hidden, and one query issued. -/
def handleSubmit (s : AssistantState) : AssistantState × List QueryRequest :=
  if isBlank s.input || s.loading then (s, [])
  else
    ({ messages := s.messages ++ [{ sender := .user, content := s.input }],
       input := "", loading := true, showExamples := false },
     [mkQueryRequest s.input])

/-- Embeds the response path of `handleSubmit` (the `then`/`catch` message
append and the `finally { setLoading(false) }`). -/
def completeQuery (s : AssistantState) (reply : String) : AssistantState :=
  { s with
    messages := s.messages ++ [{ sender := .assistant, content := reply }],
    loading := false }

/-- The externally visible events of the assistant: a form submission, or a
pending query's response (success or error) arriving. -/
inductive ChatEvent
  | submit
  | response (reply : String)
deriving Repr

/-- One event step over the component state paired with the number of
queries currently in flight. -/
def chatStep : AssistantState × ℕ → ChatEvent → AssistantState × ℕ
  | (s, inflight), .submit =>
    let out := handleSubmit s
    (out.1, inflight + out.2.length)
  | (s, inflight), .response reply =>
    if inflight = 0 then (s, inflight)
    else (completeQuery s reply, inflight - 1)

/-! ### ElevationWidget (src/atlasfluvial-site/src/components/ElevationWidget.tsx) -/

/-- A JavaScript number as `parseFloat` can produce it: NaN, a signed
infinity, or a finite value. -/
inductive JsFloat
  | nan
  | inf (neg : Bool)
  | val (q : ℚ)
deriving DecidableEq, Repr

/-- Numeric value of a decimal digit character. -/
def digitVal (c : Char) : ℕ := c.toNat - 48

/-- Value of a most-significant-first digit string. -/
def digitsToNat (ds : List Char) : ℕ :=
  ds.foldl (fun acc c => 10 * acc + digitVal c) 0

/-- Value of the fractional digit string. -/
def fracVal (ds : List Char) : ℚ :=
  (digitsToNat ds : ℚ) / 10 ^ ds.length

/-- An optionally signed digit run, as in an exponent part; 0 when no digit
follows (in which case `parseFloat` ignores the exponent marker). -/
def parseSignedDigits (cs : List Char) : ℤ :=
  let body : ℤ × List Char :=
    match cs with
    | '+' :: r => (1, r)
    | '-' :: r => (-1, r)
    | _ => (1, cs)
  let ds := body.2.takeWhile Char.isDigit
  if ds.isEmpty then 0 else body.1 * digitsToNat ds

/-- The exponent denoted by the characters following the mantissa, if they
start one. -/
def parseExpPart (cs : List Char) : ℤ :=
  match cs with
  | 'e' :: rest => parseSignedDigits rest
  | 'E' :: rest => parseSignedDigits rest
  | _ => 0

/-- JavaScript `parseFloat`: skip leading whitespace, read an optional sign,
then either the `Infinity` keyword or a decimal mantissa with optional
fraction and exponent, ignoring trailing garbage; NaN when no mantissa digit
is found. -/
def jsParseFloat (s : String) : JsFloat :=
  let cs := s.data.dropWhile jsWhitespace
  let signed : Bool × List Char :=
    match cs with
    | '+' :: r => (false, r)
    | '-' :: r => (true, r)
    | _ => (false, cs)
  let neg := signed.1
  let cs1 := signed.2
  if cs1.take 8 = "Infinity".data then .inf neg
  else
    let intDs := cs1.takeWhile Char.isDigit
    let rest1 := cs1.dropWhile Char.isDigit
    let withFrac : List Char × List Char :=
      match rest1 with
      | '.' :: r => (r.takeWhile Char.isDigit, r.dropWhile Char.isDigit)
      | _ => ([], rest1)
    let fracDs := withFrac.1
    let rest2 := withFrac.2
    if intDs.isEmpty && fracDs.isEmpty then .nan
    else
      let mant : ℚ := (digitsToNat intDs : ℚ) + fracVal fracDs
      let v : ℚ := mant * (10 : ℚ) ^ parseExpPart rest2
      .val (if neg then -v else v)

/-- The widget's result state: success flag and error message (the response
payload fields not touched by `handleLocationQuery`'s guard are omitted). -/
structure ElevResponse where
  success : Bool
  error : Option String
deriving DecidableEq, Repr

/-- The POST body `handleLocationQuery` sends to
`/api/v1/elevation/coordinates`. -/
structure CoordRequest where
  latitude : JsFloat
  longitude : JsFloat
  searchRadiusKm : ℕ
deriving DecidableEq, Repr

/-- The component state `handleLocationQuery` reads and writes. -/
structure ElevationState where
  loading : Bool
  result : Option ElevResponse
  latitude : String
  longitude : String
deriving DecidableEq, Repr

/-- The result the handler sets when a coordinate fails to parse. -/
def invalidCoordsResult : ElevResponse :=
  { success := false, error := some "Please enter valid coordinates" }

/-- Embeds `ElevationWidget.handleLocationQuery`
(src/atlasfluvial-site/src/components/ElevationWidget.tsx, lines 92-128):
the synchronous part of the handler, up to and including issuing the network
request.  `parseFloat` both fields; if either is NaN, set the
invalid-coordinates error result and return (without touching `loading`);
otherwise set `loading`, clear the result, and issue one request with
`search_radius_km: 10`. -/
def handleLocationQuery (s : ElevationState) : ElevationState × List CoordRequest :=
  let lat := jsParseFloat s.latitude
  let lon := jsParseFloat s.longitude
  if lat = .nan || lon = .nan then
    ({ s with result := some invalidCoordsResult }, [])
  else
    ({ s with loading := true, result := none },
     [{ latitude := lat, longitude := lon, searchRadiusKm := 10 }])

end Site

/-! ### Concrete sample inputs, for sanity instances -/

/-- A concrete trigger timestamp. -/
def sampleStamp : Timestamp :=
  { year := 2024, month := 1, day := 15, hour := 10, minute := 30, second := 0 }

/-- A second trigger timestamp, one second later. -/
def sampleStamp2 : Timestamp :=
  { year := 2024, month := 1, day := 15, hour := 10, minute := 30, second := 1 }

/-- The README's example anchor (London). -/
def sampleAnchor : Anchor := { latitude := 515074/10000, longitude := -1278/10000 }

/-- A concrete generation request at the README's default 1:375000 scale. -/
def sampleReq : GenerationRequest :=
  { anchor := sampleAnchor, scale := 375000, pageSize := "A4",
    generatedAt := sampleStamp }

/-- A concrete rendered map with a one-byte payload. -/
def sampleMap : RenderedMap :=
  { imageData := [7], bbox := mapBBox sampleAnchor 375000, capturedAt := sampleStamp }

/-- The artifact `composeDoc` produces from `sampleMap` and `sampleStamp`. -/
def sampleArt : ComposedArtifact := mkArtifact [7] sampleStamp "A4"

/-- Collaborators for which every external call succeeds. -/
def happyCollab : Collaborators :=
  { fetchMapImage := fun _ _ _ => .ok [7], upload := fun _ _ _ => .ok () }

/-- Collaborators whose map provider is permanently unreachable. -/
def renderDownCollab : Collaborators :=
  { fetchMapImage := fun _ _ _ => .error .RenderUnavailable,
    upload := fun _ _ _ => .ok () }

/-- Collaborators whose map provider always times out. -/
def renderTimeoutCollab : Collaborators :=
  { fetchMapImage := fun _ _ _ => .error .RenderTimeout,
    upload := fun _ _ _ => .ok () }

/-- Collaborators whose store always fails transiently. -/
def publishFlakyCollab : Collaborators :=
  { fetchMapImage := fun _ _ _ => .ok [7],
    upload := fun _ _ _ => .error .PublishTransient }

end AtlasFluvial

/-! ## Theorems -/

namespace AtlasFluvial

/-! ### Decimal padding and filename uniqueness -/

theorem digits_len_le_of_lt_pow {n w : ℕ} (h : n < 10 ^ w) :
    (Nat.digits 10 n).length ≤ w := by
  by_contra hlen
  push_neg at hlen
  have hn : n ≠ 0 := by
    rintro rfl
    simp at hlen
  have h1 : 10 ^ (Nat.digits 10 n).length ≤ 10 * n :=
    Nat.base_pow_length_digits_le 10 n (by norm_num) hn
  have h2 : 10 ^ (w + 1) ≤ 10 ^ (Nat.digits 10 n).length :=
    Nat.pow_le_pow_right (by norm_num) hlen
  have h4 : 10 * 10 ^ w = 10 ^ (w + 1) := by ring
  omega

theorem ofDigits_append_zeros (k n : ℕ) :
    Nat.ofDigits 10 (Nat.digits 10 n ++ List.replicate k 0) = n := by
  rw [Nat.ofDigits_append, Nat.ofDigits_digits]
  have h0 : Nat.ofDigits 10 (List.replicate k (0 : ℕ)) = 0 := by
    induction k with
    | zero => simp [Nat.ofDigits]
    | succ k ih => simp [List.replicate_succ, Nat.ofDigits_cons, ih]
  simp [h0]

theorem undigit_digitChar {d : ℕ} (hd : d < 10) : undigit (Nat.digitChar d) = d := by
  interval_cases d <;> rfl

theorem map_digitChar_inj : ∀ {l1 l2 : List ℕ}, (∀ d ∈ l1, d < 10) → (∀ d ∈ l2, d < 10) →
    l1.map Nat.digitChar = l2.map Nat.digitChar → l1 = l2
  | [], [], _, _, _ => rfl
  | [], _ :: _, _, _, h => by simp at h
  | _ :: _, [], _, _, h => by simp at h
  | a :: l1, b :: l2, h1, h2, h => by
    simp only [List.map_cons, List.cons.injEq] at h
    have ha : undigit (Nat.digitChar a) = a := undigit_digitChar (h1 a (by simp))
    have hb : undigit (Nat.digitChar b) = b := undigit_digitChar (h2 b (by simp))
    have hab : a = b := by rw [← ha, ← hb, h.1]
    have htl : l1 = l2 := map_digitChar_inj (fun d hd => h1 d (by simp [hd]))
      (fun d hd => h2 d (by simp [hd])) h.2
    rw [hab, htl]

theorem padNum_eq_rev_map (w n : ℕ) :
    padNum w n = ((Nat.digits 10 n ++
      List.replicate (w - (Nat.digits 10 n).length) 0).map Nat.digitChar).reverse := by
  have h0 : Nat.digitChar 0 = '0' := rfl
  simp [padNum, List.map_append, List.reverse_append, List.map_replicate,
    List.reverse_replicate, List.map_reverse, h0]

theorem padNum_inj {w n1 n2 : ℕ} (h : padNum w n1 = padNum w n2) : n1 = n2 := by
  rw [padNum_eq_rev_map, padNum_eq_rev_map] at h
  have h2 := List.reverse_injective h
  have h3 := map_digitChar_inj
    (fun d hd => by
      rcases List.mem_append.1 hd with hm | hm
      · exact Nat.digits_lt_base (by norm_num) hm
      · simp [List.eq_of_mem_replicate hm])
    (fun d hd => by
      rcases List.mem_append.1 hd with hm | hm
      · exact Nat.digits_lt_base (by norm_num) hm
      · simp [List.eq_of_mem_replicate hm])
    h2
  have h4 := congrArg (Nat.ofDigits 10) h3
  rwa [ofDigits_append_zeros, ofDigits_append_zeros] at h4

theorem padNum_length {w n : ℕ} (h : n < 10 ^ w) : (padNum w n).length = w := by
  have := digits_len_le_of_lt_pow h
  simp [padNum]
  omega

theorem stampChars_length {t : Timestamp} (h : t.valid) : (stampChars t).length = 15 := by
  obtain ⟨hy, _, hmo, _, hd, hh, hmi, hs⟩ := h
  rw [stampChars]
  simp only [List.length_append, List.length_cons, List.length_nil,
    padNum_length (Nat.lt_of_lt_of_le hy (by norm_num : (10000:ℕ) ≤ 10 ^ 4)),
    padNum_length (Nat.lt_of_le_of_lt hmo (by norm_num : (12:ℕ) < 10 ^ 2)),
    padNum_length (Nat.lt_of_le_of_lt hd (by norm_num : (31:ℕ) < 10 ^ 2)),
    padNum_length (Nat.lt_of_lt_of_le hh (by norm_num : (24:ℕ) ≤ 10 ^ 2)),
    padNum_length (Nat.lt_of_lt_of_le hmi (by norm_num : (60:ℕ) ≤ 10 ^ 2)),
    padNum_length (Nat.lt_of_lt_of_le hs (by norm_num : (60:ℕ) ≤ 10 ^ 2))]

theorem stampChars_inj {t1 t2 : Timestamp} (h1 : t1.valid) (h2 : t2.valid)
    (h : stampChars t1 = stampChars t2) : t1 = t2 := by
  obtain ⟨hy1, _, hmo1, _, hd1, hh1, hmi1, hs1⟩ := h1
  obtain ⟨hy2, _, hmo2, _, hd2, hh2, hmi2, hs2⟩ := h2
  rw [stampChars, stampChars] at h
  obtain ⟨h, es⟩ := List.append_inj' h
    (by rw [padNum_length (Nat.lt_of_lt_of_le hs1 (by norm_num : (60:ℕ) ≤ 10 ^ 2)),
      padNum_length (Nat.lt_of_lt_of_le hs2 (by norm_num : (60:ℕ) ≤ 10 ^ 2))])
  obtain ⟨h, emi⟩ := List.append_inj' h
    (by rw [padNum_length (Nat.lt_of_lt_of_le hmi1 (by norm_num : (60:ℕ) ≤ 10 ^ 2)),
      padNum_length (Nat.lt_of_lt_of_le hmi2 (by norm_num : (60:ℕ) ≤ 10 ^ 2))])
  obtain ⟨h, eh⟩ := List.append_inj' h
    (by rw [padNum_length (Nat.lt_of_lt_of_le hh1 (by norm_num : (24:ℕ) ≤ 10 ^ 2)),
      padNum_length (Nat.lt_of_lt_of_le hh2 (by norm_num : (24:ℕ) ≤ 10 ^ 2))])
  obtain ⟨h, -⟩ := List.append_inj' h rfl
  obtain ⟨h, ed⟩ := List.append_inj' h
    (by rw [padNum_length (Nat.lt_of_le_of_lt hd1 (by norm_num : (31:ℕ) < 10 ^ 2)),
      padNum_length (Nat.lt_of_le_of_lt hd2 (by norm_num : (31:ℕ) < 10 ^ 2))])
  obtain ⟨ey, emo⟩ := List.append_inj' h
    (by rw [padNum_length (Nat.lt_of_le_of_lt hmo1 (by norm_num : (12:ℕ) < 10 ^ 2)),
      padNum_length (Nat.lt_of_le_of_lt hmo2 (by norm_num : (12:ℕ) < 10 ^ 2))])
  have e1 := padNum_inj ey
  have e2 := padNum_inj emo
  have e3 := padNum_inj ed
  have e4 := padNum_inj eh
  have e5 := padNum_inj emi
  have e6 := padNum_inj es
  cases t1
  cases t2
  simp_all only

theorem pdfFilename_data (a : Anchor) (t : Timestamp) :
    (pdfFilename a t).data =
      ("map_" ++ anchorTag a ++ "_").data ++ (stampChars t ++ ".pdf".data) := by
  simp [pdfFilename, String.data_append, List.append_assoc]

/-! ### Retry wrapper laws -/

theorem runRetry_ok_first {α : Type} {op : ℕ → Except PipeError α} {a : α} {i n : ℕ}
    (h : op i = .ok a) : runRetry op i (n + 1) = ⟨1, [], .ok a⟩ := by
  simp [runRetry, h]

theorem runRetry_nontransient {α : Type} {op : ℕ → Except PipeError α} {e : PipeError}
    {i n : ℕ} (h : op i = .error e) (hnt : isTransient e = false) :
    runRetry op i (n + 1) = ⟨1, [], .error e⟩ := by
  simp [runRetry, h, hnt]

theorem runRetry_step_error {α : Type} {op : ℕ → Except PipeError α} {e : PipeError}
    {i : ℕ} (h : op i = .error e) (n : ℕ) :
    runRetry op i (n + 1) =
      if (isTransient e && n != 0) = true then
        ⟨(runRetry op (i + 1) n).attempts + 1,
          backoffDelayMs i :: (runRetry op (i + 1) n).delays,
          (runRetry op (i + 1) n).result⟩
      else ⟨1, [], .error e⟩ := by
  simp [runRetry, h]

theorem runRetry_always_transient {α : Type} {op : ℕ → Except PipeError α} {e : PipeError}
    (hop : ∀ j, op j = .error e) (ht : isTransient e = true) :
    ∀ n i, 1 ≤ n → runRetry op i n =
      ⟨n, (List.range (n - 1)).map (fun k => backoffDelayMs (i + k)), .error e⟩
  | 0, _, h => absurd h (by omega)
  | 1, i, _ => by simp [runRetry, hop i, ht]
  | (n + 2), i, _ => by
    have ih := runRetry_always_transient hop ht (n + 1) (i + 1) (by omega)
    rw [runRetry_step_error (hop i), ih]
    have hcond : (isTransient e && (n + 1) != 0) = true := by simp [ht]
    rw [hcond, if_pos rfl]
    have h1 : n + 2 - 1 = n + 1 := rfl
    have h2 : n + 1 - 1 = n := rfl
    rw [h1, h2, List.range_succ_eq_map]
    simp only [List.map_cons, List.map_map, RetryResult.mk.injEq, List.cons.injEq]
    refine ⟨trivial, ⟨by simp, List.map_congr_left fun k _ => ?_⟩, trivial⟩
    simp only [Function.comp_apply, Function.comp]
    congr 1
    omega

theorem runRetry_result_ok {α : Type} {op : ℕ → Except PipeError α} {a : α} :
    ∀ n i, (runRetry op i n).result = .ok a → ∃ j, op j = .ok a
  | 0, i, h => by simp [runRetry] at h
  | n + 1, i, h => by
    rcases hop : op i with e | b
    · by_cases hc : (isTransient e && n != 0) = true
      · simp only [runRetry, hop, hc, if_true] at h
        exact runRetry_result_ok n (i + 1) h
      · simp [runRetry, hop, hc] at h
    · refine ⟨i, ?_⟩
      simp only [runRetry, hop] at h
      simp only [hop]
      simp at h
      rw [h]

/-! ### Composer, publisher and run-execution laws -/

theorem composeDoc_ok {n : ℕ} {m : RenderedMap} {t : Timestamp} {ps : String}
    {art : ComposedArtifact} (h : composeDoc n m t ps = .ok art) :
    art = mkArtifact m.imageData t ps := by
  by_cases hie : m.imageData.isEmpty
  · simp [composeDoc, hie] at h
  · simp [composeDoc, hie] at h
    exact h.symm

theorem publishOp_ok {u : ℕ → String → ComposedArtifact → Except PipeError Unit}
    {f : String} {art : ComposedArtifact} {i : ℕ} {pub : PublishedArtifact}
    (h : publishOp u f art i = .ok pub) :
    pub.url = storeBaseUrl ++ "/" ++ f ∧ pub.filename = f ∧ pub.doc = art := by
  unfold publishOp at h
  rcases hu : u i f art with e | v
  · simp [hu] at h
  · simp [hu] at h
    rw [← h]
    exact ⟨rfl, rfl, rfl⟩

theorem storeUrl_ne_empty (f : String) : storeBaseUrl ++ "/" ++ f ≠ "" := by
  intro h
  have hlen := congrArg String.length h
  rw [String.length_append, String.length_append] at hlen
  have h31 : storeBaseUrl.length = 33 := rfl
  have h0 : ("" : String).length = 0 := rfl
  have h1 : ("/" : String).length = 1 := rfl
  omega

theorem runOnce_cases (C : Collaborators) (req : GenerationRequest) :
    ((runOnce C req).trace = [.Pending, .Rendering, .Failed] ∧
      (runOnce C req).state.status = .Failed ∧
      (∃ e, (runOnce C req).state.lastError = some (.Rendering, e)) ∧
      (runOnce C req).composeCalls = 0 ∧ (runOnce C req).publishCalls = 0 ∧
      (runOnce C req).state.artifact = none) ∨
    ((runOnce C req).trace = [.Pending, .Rendering, .Composing, .Failed] ∧
      (runOnce C req).state.status = .Failed ∧
      (∃ e, (runOnce C req).state.lastError = some (.Composing, e)) ∧
      (runOnce C req).composeCalls = 1 ∧ (runOnce C req).publishCalls = 0 ∧
      (runOnce C req).state.artifact = none) ∨
    ((runOnce C req).trace = [.Pending, .Rendering, .Composing, .Publishing, .Failed] ∧
      (runOnce C req).state.status = .Failed ∧
      (∃ e, (runOnce C req).state.lastError = some (.Publishing, e)) ∧
      (runOnce C req).composeCalls = 1 ∧
      (runOnce C req).state.artifact = none) ∨
    ((runOnce C req).trace = [.Pending, .Rendering, .Composing, .Publishing, .Succeeded] ∧
      (runOnce C req).state.status = .Succeeded ∧
      (runOnce C req).state.lastError = none ∧
      (runOnce C req).composeCalls = 1 ∧
      (∃ pub, (runOnce C req).state.artifact = some pub)) := by
  unfold runOnce
  rcases hr : (retryStage (renderOp C.fetchMapImage req)).result with e | m
  · left
    simp [hr]
  · rcases hc : composeDoc 0 m req.generatedAt req.pageSize with e | art
    · right; left
      simp [hr, hc]
    · rcases hp : (retryStage
          (publishOp C.upload (pdfFilename req.anchor req.generatedAt) art)).result with e | pub
      · right; right; left
        simp [hr, hc, hp]
      · right; right; right
        simp [hr, hc, hp]

theorem runOnce_success_artifact {C : Collaborators} {req : GenerationRequest}
    {pub : PublishedArtifact} (h : (runOnce C req).state.artifact = some pub) :
    pub.filename = pdfFilename req.anchor req.generatedAt ∧
    pub.url = storeBaseUrl ++ "/" ++ pdfFilename req.anchor req.generatedAt ∧
    pub.doc.pages.length = 2 := by
  unfold runOnce at h
  rcases hr : (retryStage (renderOp C.fetchMapImage req)).result with e | m
  · simp [hr] at h
  · rcases hc : composeDoc 0 m req.generatedAt req.pageSize with e | art
    · simp [hr, hc] at h
    · rcases hp : (retryStage
          (publishOp C.upload (pdfFilename req.anchor req.generatedAt) art)).result with e | pub0
      · simp [hr, hc, hp] at h
      · simp [hr, hc, hp] at h
        obtain ⟨j, hj⟩ := runRetry_result_ok retryCeiling 0 hp
        obtain ⟨hurl, hname, hdoc⟩ := publishOp_ok hj
        subst h
        refine ⟨hname, hurl, ?_⟩
        rw [hdoc, composeDoc_ok hc]
        rfl

/-! ### Coordinator single-flight laws -/

theorem countNonTerminal_nil : countNonTerminal [] = 0 := rfl

theorem countNonTerminal_cons (r : RunState) (s : CoordState) :
    countNonTerminal (r :: s) =
      (if r.status.isTerminal then 0 else 1) + countNonTerminal s := by
  by_cases h : r.status.isTerminal
  · simp [countNonTerminal, List.filter, h]
  · simp [countNonTerminal, List.filter, h]
    omega

theorem countNonTerminal_of_not_hasNonTerminal {s : CoordState}
    (h : hasNonTerminal s = false) : countNonTerminal s = 0 := by
  induction s with
  | nil => rfl
  | cons r rest ih =>
    simp only [hasNonTerminal, List.any_cons, Bool.or_eq_false_iff] at h
    rw [countNonTerminal_cons, ih (by simpa [hasNonTerminal] using h.2)]
    rcases h with ⟨h1, -⟩
    simp only [decide_eq_false_iff_not, Decidable.not_not] at h1
    simp [h1]

theorem coordStep_preserves_single_flight {s : CoordState}
    (h : countNonTerminal s ≤ 1) (ev : CoordEvent) :
    countNonTerminal (coordStep s ev) ≤ 1 := by
  cases ev with
  | trigger req =>
    by_cases hnt : hasNonTerminal s
    · simp [coordStep, triggerRun, hnt, h]
    · have h0 := countNonTerminal_of_not_hasNonTerminal (by simpa using hnt)
      have hc : coordStep s (.trigger req) = newRun req :: s := by
        simp [coordStep, triggerRun, hnt]
      rw [hc, countNonTerminal_cons, h0]
      simp [newRun, RunStatus.isTerminal]
  | advance st =>
    cases s with
    | nil => simpa [coordStep] using h
    | cons r rest =>
      by_cases hterm : r.status.isTerminal
      · simpa [coordStep, hterm] using h
      · rw [countNonTerminal_cons, if_neg hterm] at h
        have hc : coordStep (r :: rest) (.advance st) = { r with status := st } :: rest := by
          simp [coordStep, hterm]
        rw [hc, countNonTerminal_cons]
        split <;> omega

theorem foldl_coordStep_single_flight :
    ∀ (evs : List CoordEvent) (s : CoordState), countNonTerminal s ≤ 1 →
      countNonTerminal (List.foldl coordStep s evs) ≤ 1
  | [], _, h => h
  | ev :: evs, s, h =>
    foldl_coordStep_single_flight evs (coordStep s ev)
      (coordStep_preserves_single_flight h ev)

/-! ### Waterways Assistant in-flight laws -/

theorem handleSubmit_rejected {s : Site.AssistantState}
    (h : Site.isBlank s.input = true ∨ s.loading = true) :
    Site.handleSubmit s = (s, []) := by
  rcases h with h | h
  · simp [Site.handleSubmit, h]
  · simp [Site.handleSubmit, h]

theorem chatStep_inv {p : Site.AssistantState × ℕ}
    (h : p.2 ≤ 1 ∧ (p.1.loading = true ↔ p.2 = 1)) (ev : Site.ChatEvent) :
    (Site.chatStep p ev).2 ≤ 1 ∧
      ((Site.chatStep p ev).1.loading = true ↔ (Site.chatStep p ev).2 = 1) := by
  obtain ⟨s, n⟩ := p
  obtain ⟨hn, hiff⟩ := h
  cases ev with
  | submit =>
    by_cases hg : (Site.isBlank s.input || s.loading) = true
    · have hs : Site.handleSubmit s = (s, []) := by
        unfold Site.handleSubmit
        rw [if_pos hg]
      simp only [Site.chatStep, hs, List.length_nil, Nat.add_zero]
      exact ⟨hn, hiff⟩
    · have hfalse : (Site.isBlank s.input || s.loading) = false := by
        revert hg
        cases (Site.isBlank s.input || s.loading) <;> simp
      have hload : s.loading = false := (Bool.or_eq_false_iff.1 hfalse).2
      have hn0 : n = 0 := by
        rcases Nat.lt_or_ge n 1 with h1 | h1
        · omega
        · exfalso
          have := hiff.2 (by omega)
          rw [hload] at this
          exact Bool.false_ne_true this
      subst hn0
      have hs : Site.handleSubmit s =
          ({ messages := s.messages ++ [{ sender := .user, content := s.input }],
             input := "", loading := true, showExamples := false },
           [Site.mkQueryRequest s.input]) := by
        simp [Site.handleSubmit, hg]
      simp [Site.chatStep, hs]
  | response reply =>
    by_cases hz : n = 0
    · subst hz
      simp only [Site.chatStep, if_pos rfl]
      exact ⟨hn, hiff⟩
    · have hn1 : n = 1 := by omega
      subst hn1
      simp [Site.chatStep, Site.completeQuery]

/-! ### Claim theorems -/

/-- C1: Single-flight invariant: a trigger arriving while a recorded run is
still non-terminal is rejected with `RunInProgress` and leaves the
coordinator state — the in-flight run's `RunState` included — unchanged; and
along every event sequence from the empty coordinator, at most one recorded
run is non-terminal at any instant. -/
theorem coordinator_single_flight :
    (∀ (s : CoordState) (req : GenerationRequest), hasNonTerminal s = true →
        triggerRun s req = (s, .error .RunInProgress)) ∧
    (∀ evs : List CoordEvent,
        countNonTerminal (List.foldl coordStep [] evs) ≤ 1) := by
  constructor
  · intro s req h
    simp [triggerRun, h]
  · intro evs
    exact foldl_coordStep_single_flight evs [] (by rw [countNonTerminal_nil]; omega)

theorem coordinator_single_flight_witness :
    hasNonTerminal [newRun sampleReq] = true ∧
      triggerRun [newRun sampleReq] sampleReq =
        ([newRun sampleReq], .error .RunInProgress) :=
  ⟨rfl, coordinator_single_flight.1 [newRun sampleReq] sampleReq rfl⟩

/-- C3: No-overwrite naming: the filename of every published artifact is the
pure function `pdfFilename` of the request's anchor and `generatedAt`, and
that function is injective in `generatedAt` — two runs with distinct valid
trigger timestamps get distinct filenames, even across anchors. -/
theorem filename_no_overwrite :
    (∀ (C : Collaborators) (req : GenerationRequest) (pub : PublishedArtifact),
        (runOnce C req).state.artifact = some pub →
        pub.filename = pdfFilename req.anchor req.generatedAt) ∧
    (∀ (a1 a2 : Anchor) (t1 t2 : Timestamp), t1.valid → t2.valid → t1 ≠ t2 →
        pdfFilename a1 t1 ≠ pdfFilename a2 t2) := by
  constructor
  · intro C req pub h
    exact (runOnce_success_artifact h).1
  · intro a1 a2 t1 t2 h1 h2 hne he
    refine hne (stampChars_inj h1 h2 ?_)
    have hd := congrArg String.data he
    rw [pdfFilename_data, pdfFilename_data] at hd
    have hlen : (stampChars t1 ++ ".pdf".data).length =
        (stampChars t2 ++ ".pdf".data).length := by
      simp only [List.length_append, stampChars_length h1, stampChars_length h2]
    exact List.append_cancel_right (List.append_inj' hd hlen).2

theorem filename_no_overwrite_witness :
    sampleStamp.valid ∧ sampleStamp2.valid ∧ sampleStamp ≠ sampleStamp2 ∧
      pdfFilename sampleAnchor sampleStamp ≠ pdfFilename sampleAnchor sampleStamp2 :=
  ⟨by decide, by decide, by decide,
    filename_no_overwrite.2 sampleAnchor sampleAnchor sampleStamp sampleStamp2
      (by decide) (by decide) (by decide)⟩

/-- C6: Composer determinism (idempotence of composition): the composer is a
pure function of `RenderedMap` and `generatedAt` — byte-identical inputs
give byte-identical outputs, whatever the embedding library's ambient clock
reads (its timestamps are suppressed). -/
theorem composer_idempotent :
    ∀ (n1 n2 : ℕ) (m1 m2 : RenderedMap) (t1 t2 : Timestamp) (ps : String),
      m1 = m2 → t1 = t2 → composeDoc n1 m1 t1 ps = composeDoc n2 m2 t2 ps := by
  intro n1 n2 m1 m2 t1 t2 ps hm ht
  subst hm
  subst ht
  rfl

theorem composer_idempotent_witness :
    composeDoc 0 sampleMap sampleStamp "A4" = composeDoc 5 sampleMap sampleStamp "A4" :=
  composer_idempotent 0 5 sampleMap sampleMap sampleStamp sampleStamp "A4" rfl rfl

/-- C7: Renderer region contract: the rendered bounding box has the anchor
as its northwest corner, extends south and east by the fixed span determined
by the scale alone, and every successfully rendered map carries exactly that
box. -/
theorem renderer_region_contract :
    (∀ (a : Anchor) (sc : ℚ), 0 < sc →
        (mapBBox a sc).north = a.latitude ∧ (mapBBox a sc).west = a.longitude ∧
        (mapBBox a sc).south < (mapBBox a sc).north ∧
        (mapBBox a sc).west < (mapBBox a sc).east ∧
        (mapBBox a sc).north - (mapBBox a sc).south = spanDegrees sc ∧
        (mapBBox a sc).east - (mapBBox a sc).west = spanDegrees sc) ∧
    (∀ (F : ℕ → Anchor → ℚ → Except PipeError (List ℕ)) (req : GenerationRequest)
        (i : ℕ) (m : RenderedMap), renderOp F req i = .ok m →
        m.bbox = mapBBox req.anchor req.scale) := by
  constructor
  · intro a sc hsc
    have hspan : 0 < spanDegrees sc := by
      unfold spanDegrees
      positivity
    refine ⟨rfl, rfl, ?_, ?_, ?_, ?_⟩
    · simp only [mapBBox]
      linarith
    · simp only [mapBBox]
      linarith
    · simp only [mapBBox]
      ring
    · simp only [mapBBox]
      ring
  · intro F req i m h
    unfold renderOp at h
    rcases hf : F i req.anchor req.scale with e | bytes
    · simp [hf] at h
    · by_cases hie : bytes.isEmpty
      · simp [hf, hie] at h
      · simp [hf, hie] at h
        rw [← h]

theorem renderer_region_contract_witness :
    (mapBBox sampleAnchor 375000).south < (mapBBox sampleAnchor 375000).north ∧
      sampleMap.bbox = mapBBox sampleReq.anchor sampleReq.scale :=
  ⟨(renderer_region_contract.1 sampleAnchor 375000 (by norm_num)).2.2.1,
    renderer_region_contract.2 happyCollab.fetchMapImage sampleReq 0 sampleMap rfl⟩

/-- C9: Waterways Assistant submit guard: a form submission made while a
query is loading, or whose input is empty or whitespace-only, returns
without appending a message and without issuing a request; consequently at
most one assistant query is ever in flight along any event sequence from the
initial state. -/
theorem assistant_submit_guard :
    (∀ s : Site.AssistantState, Site.isBlank s.input = true ∨ s.loading = true →
        Site.handleSubmit s = (s, [])) ∧
    (∀ evs : List Site.ChatEvent,
        (List.foldl Site.chatStep (Site.initAssistantState, 0) evs).2 ≤ 1) := by
  constructor
  · intro s h
    exact handleSubmit_rejected h
  · intro evs
    have hinv : ∀ (l : List Site.ChatEvent) (p : Site.AssistantState × ℕ),
        p.2 ≤ 1 ∧ (p.1.loading = true ↔ p.2 = 1) →
        (List.foldl Site.chatStep p l).2 ≤ 1 ∧
          ((List.foldl Site.chatStep p l).1.loading = true ↔
            (List.foldl Site.chatStep p l).2 = 1) := by
      intro l
      induction l with
      | nil => exact fun p h => h
      | cons ev l ih => exact fun p h => ih _ (chatStep_inv h ev)
    exact (hinv evs (Site.initAssistantState, 0)
      ⟨by omega, by simp [Site.initAssistantState]⟩).1

theorem assistant_submit_guard_witness :
    Site.handleSubmit
        { messages := [], input := "   ", loading := false, showExamples := true } =
      ({ messages := [], input := "   ", loading := false, showExamples := true }, []) :=
  assistant_submit_guard.1 _ (Or.inl (by decide))

/-- C10: Elevation Widget coordinate guard: when either coordinate field
fails `parseFloat` (NaN), `handleLocationQuery` sets the invalid-coordinates
error result and returns — no request is issued and the loading flag is
never touched. -/
theorem elevation_coordinate_guard :
    ∀ s : Site.ElevationState,
      Site.jsParseFloat s.latitude = .nan ∨ Site.jsParseFloat s.longitude = .nan →
      Site.handleLocationQuery s =
          ({ s with result := some Site.invalidCoordsResult }, []) ∧
        (Site.handleLocationQuery s).1.loading = s.loading ∧
        (Site.handleLocationQuery s).2 = [] := by
  intro s h
  have hmain : Site.handleLocationQuery s =
      ({ s with result := some Site.invalidCoordsResult }, []) := by
    rcases h with h | h
    · simp [Site.handleLocationQuery, h]
    · simp [Site.handleLocationQuery, h]
  refine ⟨hmain, ?_, ?_⟩
  · rw [hmain]
  · rw [hmain]

theorem elevation_coordinate_guard_witness :
    Site.handleLocationQuery
        { loading := false, result := none, latitude := "abc", longitude := "1.5" } =
      ({ loading := false, result := some Site.invalidCoordsResult,
         latitude := "abc", longitude := "1.5" }, []) :=
  (elevation_coordinate_guard
    { loading := false, result := none, latitude := "abc", longitude := "1.5" }
    (Or.inl (by decide))).1

/-- C2: Composer page contract: every artifact the composer accepts has
exactly two pages at the requested page size — page 1 the map image under
the fixed configuration label, page 2 the fixed 2×3 grid of six static
narrative sections with the `generatedAt` stamp — and every successful
one-shot run publishes a non-empty URL whose document has exactly two
pages. -/
theorem composer_page_contract :
    (∀ (n : ℕ) (m : RenderedMap) (t : Timestamp) (ps : String)
        (art : ComposedArtifact), composeDoc n m t ps = .ok art →
        art.pages = [.mapPage m.imageData mapLabelText,
          .culturePage cultureGridRows cultureGridCols narrativeSections
            (humanDate t)] ∧
        art.pages.length = 2 ∧ art.pageSize = ps ∧
        narrativeSections.length = 6 ∧ cultureGridRows = 2 ∧ cultureGridCols = 3) ∧
    (∀ (C : Collaborators) (req : GenerationRequest),
        (runOnce C req).state.status = .Succeeded →
        ∃ pub, (runOnce C req).state.artifact = some pub ∧ pub.url ≠ "" ∧
          pub.doc.pages.length = 2) := by
  constructor
  · intro n m t ps art h
    rw [composeDoc_ok h]
    exact ⟨rfl, rfl, rfl, rfl, rfl, rfl⟩
  · intro C req h
    rcases runOnce_cases C req with ⟨-, hst, -⟩ | ⟨-, hst, -⟩ | ⟨-, hst, -⟩ |
      ⟨-, -, -, -, pub, hpub⟩
    · rw [hst] at h
      exact absurd h (by decide)
    · rw [hst] at h
      exact absurd h (by decide)
    · rw [hst] at h
      exact absurd h (by decide)
    · obtain ⟨-, hurl, hlen⟩ := runOnce_success_artifact hpub
      refine ⟨pub, hpub, ?_, hlen⟩
      rw [hurl]
      exact storeUrl_ne_empty _

theorem composer_page_contract_witness :
    sampleArt.pages.length = 2 ∧
      (∃ pub, (runOnce happyCollab sampleReq).state.artifact = some pub ∧
        pub.url ≠ "" ∧ pub.doc.pages.length = 2) :=
  ⟨(composer_page_contract.1 0 sampleMap sampleStamp "A4" sampleArt rfl).2.1,
    composer_page_contract.2 happyCollab sampleReq rfl⟩

/-- C4: Retry policy: exactly `RenderTimeout` and `PublishTransient` are
transient; a non-transient error stops its stage after one attempt; an
always-transient stage performs exactly `retryCeiling` attempts with the
exponential backoff schedule and then fails; so an always-failing transient
renderer (publisher) drives the run to `Failed` after exactly `retryCeiling`
attempts of that stage. -/
theorem retry_bound_policy :
    (∀ e : PipeError, isTransient e = true ↔
        e = .RenderTimeout ∨ e = .PublishTransient) ∧
    (∀ (α : Type) (op : ℕ → Except PipeError α) (e : PipeError),
        op 0 = .error e → isTransient e = false →
        retryStage op = ⟨1, [], .error e⟩) ∧
    (∀ (α : Type) (op : ℕ → Except PipeError α) (e : PipeError),
        isTransient e = true → (∀ j, op j = .error e) →
        retryStage op =
          ⟨retryCeiling, (List.range (retryCeiling - 1)).map backoffDelayMs,
            .error e⟩) ∧
    (∀ i : ℕ, backoffDelayMs i = backoffBaseMs * 2 ^ i) ∧
    (∀ (C : Collaborators) (req : GenerationRequest),
        (∀ i a sc, C.fetchMapImage i a sc = .error .RenderTimeout) →
        (runOnce C req).state.renderAttempts = retryCeiling ∧
        (runOnce C req).state.status = .Failed ∧
        (runOnce C req).state.lastError = some (.Rendering, .RenderTimeout)) ∧
    (∀ (C : Collaborators) (req : GenerationRequest) (img : List ℕ),
        img ≠ [] → (∀ i a sc, C.fetchMapImage i a sc = .ok img) →
        (∀ i f art, C.upload i f art = .error .PublishTransient) →
        (runOnce C req).state.publishAttempts = retryCeiling ∧
        (runOnce C req).state.status = .Failed ∧
        (runOnce C req).state.lastError = some (.Publishing, .PublishTransient)) := by
  refine ⟨?_, ?_, ?_, ?_, ?_, ?_⟩
  · intro e
    cases e <;> simp [isTransient]
  · intro α op e h hnt
    unfold retryStage retryCeiling
    exact runRetry_nontransient h hnt
  · intro α op e ht hop
    have h3 := runRetry_always_transient hop ht retryCeiling 0
      (by norm_num [retryCeiling])
    unfold retryStage
    rw [h3]
    simp
  · intro i
    rfl
  · intro C req hF
    have hop : ∀ i, renderOp C.fetchMapImage req i = .error .RenderTimeout :=
      fun i => by simp [renderOp, hF i]
    have h3 := runRetry_always_transient hop rfl retryCeiling 0
      (by norm_num [retryCeiling])
    have h4 : retryStage (renderOp C.fetchMapImage req) =
        ⟨retryCeiling,
          (List.range (retryCeiling - 1)).map (fun k => backoffDelayMs (0 + k)),
          .error .RenderTimeout⟩ := by
      unfold retryStage
      rw [h3]
    simp [runOnce, h4]
  · intro C req img hne hF hU
    have hie : img.isEmpty = false := by
      cases img with
      | nil => exact absurd rfl hne
      | cons b bs => rfl
    have hrop : renderOp C.fetchMapImage req 0 =
        .ok { imageData := img, bbox := mapBBox req.anchor req.scale,
              capturedAt := req.generatedAt } := by
      simp [renderOp, hF 0, hie]
    have hr : retryStage (renderOp C.fetchMapImage req) =
        ⟨1, [], .ok { imageData := img, bbox := mapBBox req.anchor req.scale,
                      capturedAt := req.generatedAt }⟩ := by
      unfold retryStage retryCeiling
      exact runRetry_ok_first hrop
    have hc : composeDoc 0
        { imageData := img, bbox := mapBBox req.anchor req.scale,
          capturedAt := req.generatedAt } req.generatedAt req.pageSize =
        .ok (mkArtifact img req.generatedAt req.pageSize) := by
      simp [composeDoc, hie]
    have hpop : ∀ i, publishOp C.upload (pdfFilename req.anchor req.generatedAt)
        (mkArtifact img req.generatedAt req.pageSize) i =
        .error .PublishTransient :=
      fun i => by simp [publishOp, hU]
    have hp3 := runRetry_always_transient hpop rfl retryCeiling 0
      (by norm_num [retryCeiling])
    have hp : retryStage (publishOp C.upload (pdfFilename req.anchor req.generatedAt)
        (mkArtifact img req.generatedAt req.pageSize)) =
        ⟨retryCeiling,
          (List.range (retryCeiling - 1)).map (fun k => backoffDelayMs (0 + k)),
          .error .PublishTransient⟩ := by
      unfold retryStage
      rw [hp3]
    simp [runOnce, hr, hc, hp]

theorem retry_bound_policy_witness :
    ((runOnce renderTimeoutCollab sampleReq).state.renderAttempts = retryCeiling ∧
      (runOnce renderTimeoutCollab sampleReq).state.status = .Failed ∧
      (runOnce renderTimeoutCollab sampleReq).state.lastError =
        some (.Rendering, .RenderTimeout)) ∧
    ((runOnce publishFlakyCollab sampleReq).state.publishAttempts = retryCeiling ∧
      (runOnce publishFlakyCollab sampleReq).state.status = .Failed ∧
      (runOnce publishFlakyCollab sampleReq).state.lastError =
        some (.Publishing, .PublishTransient)) :=
  ⟨retry_bound_policy.2.2.2.2.1 renderTimeoutCollab sampleReq (fun _ _ _ => rfl),
    retry_bound_policy.2.2.2.2.2 publishFlakyCollab sampleReq [7] (by simp)
      (fun _ _ _ => rfl) (fun _ _ _ => rfl)⟩

/-- C5: Stage sequencing and fail-fast: every run's status trace is the
strict sequence Pending, Rendering, Composing, Publishing truncated at its
first failure (carrying the originating stage and error) or completed with
Succeeded — no stage is skipped; and a renderer that always fails with
`RenderUnavailable` drives the run to `Failed` at stage Rendering with the
Composer and Publisher invoked zero times. -/
theorem stage_sequencing_fail_fast :
    (∀ (C : Collaborators) (req : GenerationRequest),
      ((runOnce C req).trace = [.Pending, .Rendering, .Failed] ∧
        (runOnce C req).state.status = .Failed ∧
        (∃ e, (runOnce C req).state.lastError = some (.Rendering, e)) ∧
        (runOnce C req).composeCalls = 0 ∧ (runOnce C req).publishCalls = 0 ∧
        (runOnce C req).state.artifact = none) ∨
      ((runOnce C req).trace = [.Pending, .Rendering, .Composing, .Failed] ∧
        (runOnce C req).state.status = .Failed ∧
        (∃ e, (runOnce C req).state.lastError = some (.Composing, e)) ∧
        (runOnce C req).composeCalls = 1 ∧ (runOnce C req).publishCalls = 0 ∧
        (runOnce C req).state.artifact = none) ∨
      ((runOnce C req).trace =
          [.Pending, .Rendering, .Composing, .Publishing, .Failed] ∧
        (runOnce C req).state.status = .Failed ∧
        (∃ e, (runOnce C req).state.lastError = some (.Publishing, e)) ∧
        (runOnce C req).composeCalls = 1 ∧
        (runOnce C req).state.artifact = none) ∨
      ((runOnce C req).trace =
          [.Pending, .Rendering, .Composing, .Publishing, .Succeeded] ∧
        (runOnce C req).state.status = .Succeeded ∧
        (runOnce C req).state.lastError = none ∧
        (runOnce C req).composeCalls = 1 ∧
        (∃ pub, (runOnce C req).state.artifact = some pub))) ∧
    (∀ (C : Collaborators) (req : GenerationRequest),
        (∀ i a sc, C.fetchMapImage i a sc = .error .RenderUnavailable) →
        (runOnce C req).state.status = .Failed ∧
        (runOnce C req).state.lastError = some (.Rendering, .RenderUnavailable) ∧
        (runOnce C req).composeCalls = 0 ∧ (runOnce C req).publishCalls = 0) := by
  constructor
  · exact runOnce_cases
  · intro C req hF
    have hop : ∀ i, renderOp C.fetchMapImage req i = .error .RenderUnavailable :=
      fun i => by simp [renderOp, hF i]
    have hr : retryStage (renderOp C.fetchMapImage req) =
        ⟨1, [], .error .RenderUnavailable⟩ := by
      unfold retryStage retryCeiling
      exact runRetry_nontransient (hop 0) rfl
    simp [runOnce, hr]

theorem stage_sequencing_fail_fast_witness :
    (runOnce renderDownCollab sampleReq).state.status = .Failed ∧
      (runOnce renderDownCollab sampleReq).state.lastError =
        some (.Rendering, .RenderUnavailable) ∧
      (runOnce renderDownCollab sampleReq).composeCalls = 0 ∧
      (runOnce renderDownCollab sampleReq).publishCalls = 0 :=
  stage_sequencing_fail_fast.2 renderDownCollab sampleReq (fun _ _ _ => rfl)

/-- C8: Process exit behaviour: in one-shot mode the exit code is 0 exactly
when the run succeeded, and a non-succeeded run exits non-zero with a
message naming its failing stage (stage names being distinct); in ambient
mode the scheduler never exits on a run's outcome — it continues to the
next interval. -/
theorem process_exit_codes :
    (∀ rs : RunState, oneShotExitCode rs = 0 ↔ rs.status = .Succeeded) ∧
    (∀ rs : RunState, schedulerReact .ambient rs = .continueLoop) ∧
    (∀ rs : RunState,
        schedulerReact .once rs = .exitWith (oneShotExitCode rs) (exitMessage rs)) ∧
    (∀ st1 st2 : Stage, st1.name = st2.name → st1 = st2) ∧
    (∀ (C : Collaborators) (req : GenerationRequest),
        (runOnce C req).state.status ≠ .Succeeded →
        oneShotExitCode (runOnce C req).state ≠ 0 ∧
        ∃ st e, (runOnce C req).state.lastError = some (st, e) ∧
          exitMessage (runOnce C req).state = "run failed at stage " ++ st.name) := by
  refine ⟨?_, ?_, ?_, ?_, ?_⟩
  · intro rs
    by_cases h : rs.status = .Succeeded <;> simp [oneShotExitCode, h]
  · intro rs
    rfl
  · intro rs
    rfl
  · intro st1 st2 h
    cases st1 <;> cases st2 <;> first | rfl | exact absurd h (by decide)
  · intro C req h
    rcases runOnce_cases C req with ⟨-, hst, ⟨e, hle⟩, -⟩ | ⟨-, hst, ⟨e, hle⟩, -⟩ |
      ⟨-, hst, ⟨e, hle⟩, -⟩ | ⟨-, hst, -⟩
    · exact ⟨by simp [oneShotExitCode, hst], .Rendering, e, hle,
        by simp [exitMessage, hst, hle]⟩
    · exact ⟨by simp [oneShotExitCode, hst], .Composing, e, hle,
        by simp [exitMessage, hst, hle]⟩
    · exact ⟨by simp [oneShotExitCode, hst], .Publishing, e, hle,
        by simp [exitMessage, hst, hle]⟩
    · exact absurd hst h

theorem process_exit_codes_witness :
    oneShotExitCode (runOnce renderDownCollab sampleReq).state ≠ 0 ∧
      ∃ st e, (runOnce renderDownCollab sampleReq).state.lastError = some (st, e) ∧
        exitMessage (runOnce renderDownCollab sampleReq).state =
          "run failed at stage " ++ st.name :=
  process_exit_codes.2.2.2.2 renderDownCollab sampleReq (by decide)
